import Mathlib

/-!
# Verification of the Turkish e-pin price-scraper orchestration core

Shallow embedding of the scraping pipeline:
* `Helpers` — the pure text normalizers of `src/utils/helpers.ts`
  (`sanitizeText`, `extractDomain`, `parsePrice`, `isValidPrice`,
  `extractGameSlug`).
* `PuppeteerScraper` — the in-page extraction logic and per-URL outcome
  construction of `src/scrapers/puppeteer-scraper.ts`.
* `FlareSolverrScraper` — the server-side cheerio extraction and outcome
  construction of `src/scrapers/flaresolverr-scraper.ts`.
* `HttpOrchestrator` — per-URL dispatch, the batch loop and batch-report
  assembly of `src/http-orchestrator.ts`.
* `N8NClient` — payload construction and webhook posting of
  `src/utils/n8n-client.ts`.

I/O effects (browser navigation, HTTP fetches, exceptions thrown by the
runtime) are modelled by explicit per-URL effect descriptions passed in as
data; wall-clock timing is ambient nondeterminism and is modelled as `0`.
-/

/-! ## JavaScript string primitives

Models of the JS string operations the source relies on, over `List Char`.
-/

/-- Model of the principal members of the JS regex class `\s`
(space, tab, LF, CR, VT, FF, NBSP). -/
def jsSpace (c : Char) : Bool :=
  c = ' ' || c = '\t' || c = '\n' || c = '\r' ||
  c.toNat = 11 || c.toNat = 12 || c.toNat = 160

/-- Model of `s.replace(/\s+/g, ' ')`: every maximal run of whitespace
becomes a single space. -/
def collapseWs : List Char → List Char
  | [] => []
  | c :: rest =>
    if jsSpace c then
      match rest with
      | [] => [' ']
      | d :: _ => if jsSpace d then collapseWs rest else ' ' :: collapseWs rest
    else c :: collapseWs rest

/-- Model of JS `String.prototype.trim` (whitespace stripped from both ends). -/
def trimList (s : List Char) : List Char :=
  ((s.dropWhile jsSpace).reverse.dropWhile jsSpace).reverse

/-- Model of JS `s.replace(pat, repl)` with a *string* pattern: only the
first occurrence is replaced; the string is unchanged when `pat` is absent. -/
def replaceFirstList (pat repl : List Char) : List Char → List Char
  | [] => if pat.isPrefixOf ([] : List Char) then repl else []
  | d :: rest =>
    if pat.isPrefixOf (d :: rest) then repl ++ List.drop pat.length (d :: rest)
    else d :: replaceFirstList pat repl rest

/-- Model of JS `hay.includes(needle)` (substring containment). -/
def jsIncludes (hay needle : List Char) : Bool :=
  match hay with
  | [] => needle.isEmpty
  | _ :: rest => needle.isPrefixOf hay || jsIncludes rest needle

/-- Worker for `splitOnSep`; the fuel is an upper bound on the number of
steps (one input character is consumed per step, so the input's length
suffices) making the recursion structural and kernel-reducible. -/
def splitOnSepFuel (c : Char) (cs : List Char) : Nat → List Char → List (List Char)
  | _, [] => [[]]
  | 0, s => [s]
  | fuel + 1, d :: rest =>
    if (c :: cs).isPrefixOf (d :: rest) then
      [] :: splitOnSepFuel c cs fuel (rest.drop cs.length)
    else
      match splitOnSepFuel c cs fuel rest with
      | [] => [[d]]
      | g :: gs => (d :: g) :: gs

/-- Model of JS `s.split(sep)` for a non-empty string separator
`sep = c :: cs`. -/
def splitOnSep (c : Char) (cs : List Char) (s : List Char) : List (List Char) :=
  splitOnSepFuel c cs s.length s

/-- Numeric value of a list of decimal digit characters. -/
def digitsToNat (l : List Char) : Nat :=
  l.foldl (fun n c => 10 * n + (c.toNat - 48)) 0

/-- An exact, unnormalized decimal fraction `num / den`, representing the
non-negative JS numbers produced by `parseFloat` on the scraper's price
strings (`den` is always a power of ten).  Kept unnormalized so that all
comparisons are plain `Nat` arithmetic and kernel-reducible. -/
structure JsNum where
  num : Nat
  den : Nat
deriving DecidableEq, Repr

/-- The rational value of a `JsNum`. -/
def JsNum.toRat (p : JsNum) : ℚ := (p.num : ℚ) / (p.den : ℚ)

/-- Strict positivity (`p > 0` in JS; `NaN > 0` is false there, and `NaN`
is represented outside `JsNum` as `Option.none`). -/
def JsNum.isPos (p : JsNum) : Bool := 0 < p.num

/-- Model of JS `parseFloat` restricted to the inputs the scraper produces:
strings over digits, `.` and `,`.  Parses the longest prefix of the form
`\d*(\.\d*)?` containing at least one digit; `none` models `NaN`. -/
def parseFloatM (s : List Char) : Option JsNum :=
  let ip := s.takeWhile Char.isDigit
  let r1 := s.dropWhile Char.isDigit
  let fp := match r1 with
    | '.' :: r2 => r2.takeWhile Char.isDigit
    | _ => []
  if ip.isEmpty && fp.isEmpty then none
  else some ⟨digitsToNat ip * 10 ^ fp.length + digitsToNat fp, 10 ^ fp.length⟩

/-! ## A matcher for the price regexes

The source uses regexes of exactly three shapes, always against
whitespace-collapsed text:

* `(\d+(?:[.,]\d+)?)\s*LIT`   (number followed by a currency literal),
* `LIT\s*(\d+(?:[.,]\d+)?)`   (currency literal followed by a number),
* `(\d+(?:[.,]\d+)?)`         (bare number),

plus the in-page fallback `(\d+(?:[.,]\d+)?)\s*(tl|₺|try|usd|eur)`.
We implement leftmost matching with JS backtracking semantics for these
shapes.
-/

/-- Candidate matches of `\d+(?:[.,]\d+)?` anchored at the head of `s`, as
`(captured characters, remaining input)` in JS backtracking order (the
greedy optional fraction group first). -/
def numCands (s : List Char) : List (List Char × List Char) :=
  let ds := s.takeWhile Char.isDigit
  if ds.isEmpty then []
  else
    let r1 := s.dropWhile Char.isDigit
    match r1 with
    | sep :: r2 =>
      if sep = '.' || sep = ',' then
        let fs := r2.takeWhile Char.isDigit
        if fs.isEmpty then [(ds, r1)]
        else [(ds ++ sep :: fs, r2.dropWhile Char.isDigit), (ds, r1)]
      else [(ds, r1)]
    | [] => [(ds, [])]

/-- Match a literal at the head of `s` (case-insensitively when `ci`),
returning `(consumed input characters, remaining input)`. -/
def litAt (lit : List Char) (ci : Bool) (s : List Char) : Option (List Char × List Char) :=
  match lit, s with
  | [], rest => some ([], rest)
  | _ :: _, [] => none
  | l :: ls, c :: cs =>
    if (if ci then c.toLower = l.toLower else c = l) then
      match litAt ls ci cs with
      | some (co, rest) => some (c :: co, rest)
      | none => none
    else none

/-- Anchored matcher for `(\d+(?:[.,]\d+)?)\s*LIT`; returns capture group 1. -/
def numThenLitAt (lit : List Char) (ci : Bool) (s : List Char) : Option (List Char) :=
  (numCands s).findSome? fun gc =>
    match litAt lit ci (gc.2.dropWhile jsSpace) with
    | some _ => some gc.1
    | none => none

/-- Anchored matcher for `LIT\s*(\d+(?:[.,]\d+)?)`; returns capture group 1. -/
def litThenNumAt (lit : List Char) (ci : Bool) (s : List Char) : Option (List Char) :=
  match litAt lit ci s with
  | none => none
  | some (_, rest) =>
    match numCands (rest.dropWhile jsSpace) with
    | [] => none
    | gc :: _ => some gc.1

/-- Anchored matcher for the bare-number pattern `(\d+(?:[.,]\d+)?)`. -/
def bareNumAt (s : List Char) : Option (List Char) :=
  match numCands s with
  | [] => none
  | gc :: _ => some gc.1

/-- Leftmost-match search: try the anchored matcher at every position from
the left, first success wins (JS regex scan order). -/
def scanLeftmost (f : List Char → Option α) : List Char → Option α
  | [] => f []
  | c :: rest =>
    match f (c :: rest) with
    | some a => some a
    | none => scanLeftmost f rest

/-! ## Text normalizers (`src/utils/helpers.ts`) -/

namespace Helpers

/-- The character whitelist of `sanitizeText`'s regex `[^\w\s\-_.₺$€]`
(JS `\w` is `[A-Za-z0-9_]`, ASCII only). -/
def whitelistChar (c : Char) : Bool :=
  ('a' ≤ c && c ≤ 'z') || ('A' ≤ c && c ≤ 'Z') || c.isDigit || c = '_' ||
  jsSpace c || c = '-' || c = '.' || c = '₺' || c = '$' || c = '€'

/-- `sanitizeText` (helpers.ts:128): collapse whitespace, strip characters
outside the whitelist, trim.  (The in-browser copy inside
`puppeteer-scraper.ts` differs; see `PuppeteerScraper.sanitizeText`.) -/
def sanitizeText (text : String) : String :=
  String.mk (trimList ((collapseWs text.data).filter whitelistChar))

/-- Modelled platform behaviour: `new URL(url).hostname` for absolute
`http://`/`https://` URLs of the simple `scheme://[userinfo@]host[:port][/...]`
shape this scraper processes; `none` models the `TypeError` thrown on a
URL without such a scheme prefix or with an empty host. -/
def urlHostname (url : String) : Option String :=
  let d := url.data
  let afterScheme : Option (List Char) :=
    if "https://".data.isPrefixOf d then some (d.drop 8)
    else if "http://".data.isPrefixOf d then some (d.drop 7)
    else none
  match afterScheme with
  | none => none
  | some rest =>
    let authority := rest.takeWhile fun c => !(c = '/' || c = '?' || c = '#')
    let hostPort := (authority.reverse.takeWhile (· ≠ '@')).reverse
    let host := hostPort.takeWhile (· ≠ ':')
    if host.isEmpty then none else some (String.mk (host.map Char.toLower))

/-- `extractDomain` (helpers.ts:43): hostname of the parsed URL with the
*first* occurrence of `"www."` replaced by the empty string
(JS `String.replace` with a string pattern); `""` when URL parsing throws. -/
def extractDomain (url : String) : String :=
  match urlHostname url with
  | some host => String.mk (replaceFirstList "www.".data [] host.data)
  | none => ""

/-- The `gameKeywords` table of `extractGameSlug` (helpers.ts:53), in
source (insertion) order. -/
def gameKeywords : List (String × List String) :=
  [("pubg", ["pubg", "mobile", "uc"]),
   ("mobile-legends", ["mobile", "legends", "mlbb", "elmas"]),
   ("valorant", ["valorant", "vp", "points"]),
   ("lol", ["lol", "league", "legends", "rp", "riot"]),
   ("free-fire", ["free", "fire", "garena"]),
   ("genshin-impact", ["genshin", "impact", "genesis"]),
   ("honor-of-kings", ["honor", "kings", "jeton"]),
   ("roblox", ["roblox", "robux"]),
   ("steam", ["steam", "wallet", "cuzdan"]),
   ("razer-gold", ["razer", "gold"])]

/-- `extractGameSlug` (helpers.ts:52): first table entry one of whose
keywords occurs in the lowercased `url + " " + title`. -/
def extractGameSlug (url title : String) : String :=
  let combined := (url.data.map Char.toLower) ++ ' ' :: (title.data.map Char.toLower)
  match gameKeywords.find? (fun p => p.2.any fun k => jsIncludes combined k.data) with
  | some p => p.1
  | none => "unknown"

/-- Result shape of `parsePrice`. -/
structure PriceResult where
  price : JsNum
  currency : String
deriving DecidableEq, Repr

/-- The ordered `patterns` list of `parsePrice` (helpers.ts:86): each entry
is an anchored matcher for the pattern's regex plus the currency it assigns.
Order: ₺/TL → TRY, then $ → USD, then € → EUR, then a bare number → TRY. -/
def currencyPatterns : List ((List Char → Option (List Char)) × String) :=
  [(numThenLitAt ['₺'] false, "TRY"),
   (litThenNumAt ['₺'] false, "TRY"),
   (numThenLitAt ['T', 'L'] true, "TRY"),
   (litThenNumAt ['T', 'L'] true, "TRY"),
   (numThenLitAt ['$'] false, "USD"),
   (litThenNumAt ['$'] false, "USD"),
   (numThenLitAt ['€'] false, "EUR"),
   (litThenNumAt ['€'] false, "EUR"),
   (bareNumAt, "TRY")]

/-- `parsePrice` (helpers.ts:79): empty text → `{0, TRY}`; otherwise collapse
whitespace and trim, try the ordered pattern list (leftmost match per
pattern, first pattern with a match wins), normalize a decimal comma of the
captured number to a period, `parseFloat`; `{0, TRY}` when nothing matches. -/
def parsePrice (priceText : String) : PriceResult :=
  if priceText = "" then ⟨⟨0, 1⟩, "TRY"⟩
  else
    let cleaned := trimList (collapseWs priceText.data)
    match currencyPatterns.findSome?
        (fun pc => (scanLeftmost pc.1 cleaned).map fun g => (g, pc.2)) with
    | some (g, cur) => ⟨(parseFloatM (replaceFirstList [','] ['.'] g)).getD ⟨0, 1⟩, cur⟩
    | none => ⟨⟨0, 1⟩, "TRY"⟩

/-- `isValidPrice` (helpers.ts:124): `price > 0 && price < 1000000 && !isNaN`,
as exact arithmetic on the decimal fraction. -/
def isValidPrice (p : JsNum) : Bool :=
  0 < p.num && p.num < 1000000 * p.den

end Helpers

/-! ## Data model (`src/types/index.ts`) -/

/-- `ScrapedItem` (types/index.ts:12).  `price` is the *raw* price text, as
in the source. -/
structure ScrapedItem where
  title : String
  price : String
  originalPrice : Option String := none
  currency : String
  region : String
  url : String
  siteName : String
  gameSlug : Option String := none
deriving DecidableEq, Repr

/-- `ScrapingResult` (types/index.ts:39).  `responseTime` is wall-clock
timing, modelled as `0` everywhere. -/
structure ScrapingResult where
  success : Bool
  url : String
  items : List ScrapedItem
  error : Option String := none
  responseTime : Nat
  siteName : String
deriving DecidableEq, Repr

/-- `BatchResult` (types/index.ts:48).  `timestamp` is the `Date` captured
at batch start, modelled as an abstract `Nat`. -/
structure BatchResult where
  batchId : String
  timestamp : Nat
  totalUrls : Nat
  successCount : Nat
  failedCount : Nat
  results : List ScrapingResult
  totalItems : Nat
  errors : List String
deriving DecidableEq, Repr

/-- The `selectors` field of `SiteConfig` (types/index.ts:26). -/
structure SiteSelectors where
  container : String
  title : String
  price : String
  originalPrice : Option String := none
  currency : Option String := none
deriving DecidableEq, Repr

/-- `SiteConfig` (types/index.ts:23). -/
structure SiteConfig where
  name : String
  domain : String
  selectors : SiteSelectors
  waitFor : Option String := none
  delay : Option Nat := none
  maxRetries : Option Nat := none
  requiresJS : Option Bool := none
deriving DecidableEq, Repr

/-- `ScrapedPrice` (types/index.ts:1), the flat price record sent to the
webhook (optional ids omitted by `sendBatchData` are left out). -/
structure ScrapedPrice where
  price : JsNum
  currency : String
  region : String
  product_name : String
  url : String
  batch_timestamp : Nat
deriving DecidableEq, Repr

/-- `metadata` of `N8NWebhookPayload` (types/index.ts:63). -/
structure N8NMetadata where
  totalUrls : Nat
  successCount : Nat
  failedCount : Nat
  totalItems : Nat
deriving DecidableEq, Repr

/-- `N8NWebhookPayload` (types/index.ts:59); `timestamp` is the batch
timestamp (source serializes it to ISO-8601). -/
structure N8NWebhookPayload where
  batchId : String
  timestamp : Nat
  items : List ScrapedPrice
  metadata : N8NMetadata
deriving DecidableEq, Repr

/-! ## Abstract DOM

Both extractors run an ordered selector cascade over matched elements.
Selectors are uninterpreted strings, so a DOM is modelled extensionally: an
element answers, per selector, the text content of its first matching
descendant (`querySelector`/cheerio `.find().first()`), plus its attributes
and its own full text content. -/

/-- An element of the scraped document. -/
structure Element where
  /-- Text content of the first descendant matching a selector
  (`none`: no match). -/
  sub : String → Option String
  /-- Attribute lookup (`none`: attribute absent). -/
  attr : String → Option String
  /-- The element's own full `textContent`. -/
  textContent : String

/-- A loaded document: `query` models `querySelectorAll` /
cheerio `$(selector)` (matched elements in document order). -/
structure Page where
  query : String → List Element

/-- Shared selector-cascade step: first selector whose queried text is
non-empty after trimming wins; returns that trimmed text, else `""`.
(Models puppeteer-scraper.ts:223-239 and flaresolverr-scraper.ts:75-97.) -/
def firstSelText (el : Element) : List String → String
  | [] => ""
  | sel :: rest =>
    match el.sub sel with
    | some t =>
      if (trimList t.data).isEmpty then firstSelText el rest
      else String.mk (trimList t.data)
    | none => firstSelText el rest

/-! ## Headless-browser extractor (`src/scrapers/puppeteer-scraper.ts`)

The in-page `page.evaluate` callback re-creates its own helper functions
(lines 176-205); they differ from `utils/helpers.ts` and are embedded
separately below. -/

namespace PuppeteerScraper

/-- In-page `sanitizeText` (puppeteer-scraper.ts:176): collapse whitespace,
trim, cap at 200 characters — no character whitelist here. -/
def sanitizeText (text : String) : String :=
  String.mk ((trimList (collapseWs text.data)).take 200)

/-- In-page `parsePrice` (puppeteer-scraper.ts:180): strip everything but
digits, `.` and `,`; replace the first `,` by `.`; `parseFloat` (`none`
models `NaN`); currency by case-insensitive substring test for `usd`/`eur`,
default `TRY`. -/
def parsePrice (priceText : String) : Option JsNum × String :=
  let numeric := parseFloatM (replaceFirstList [','] ['.']
    (priceText.data.filter fun c => c.isDigit || c = '.' || c = ','))
  let low := priceText.data.map Char.toLower
  let currency :=
    if jsIncludes low "usd".data then "USD"
    else if jsIncludes low "eur".data then "EUR"
    else "TRY"
  (numeric, currency)

/-- In-page `isValidPrice` (puppeteer-scraper.ts:187):
`!isNaN(price) && price > 0 && price < 1000000`. -/
def isValidPrice : Option JsNum → Bool
  | none => false
  | some p => 0 < p.num && p.num < 1000000 * p.den

/-- In-page `detectRegion` (puppeteer-scraper.ts:191); note the URL is
tested case-sensitively, only the title is lowercased, as in the source. -/
def detectRegion (url title : String) : String :=
  let u := url.data
  let t := title.data.map Char.toLower
  if jsIncludes u "global".data || jsIncludes t "global".data then "Global"
  else if jsIncludes u "eu".data || jsIncludes u "europe".data || jsIncludes t "eu".data then "EU"
  else if jsIncludes u "na".data || jsIncludes u "america".data || jsIncludes t "na".data then "US"
  else "TR"

/-- In-page `extractGameSlug` (puppeteer-scraper.ts:198). -/
def extractGameSlug (url title : String) : String :=
  let u := url.data
  let t := title.data.map Char.toLower
  if jsIncludes u "pubg".data || jsIncludes t "pubg".data then "pubg"
  else if jsIncludes u "lol".data || jsIncludes u "legends".data || jsIncludes t "legends".data then "lol"
  else if jsIncludes u "valorant".data || jsIncludes t "valorant".data then "valorant"
  else if jsIncludes u "mobile-legends".data || jsIncludes t "mobile legends".data then "mobile-legends"
  else if jsIncludes u "fire".data || jsIncludes t "fire".data then "free-fire"
  else "unknown"

/-- The alternation `(tl|₺|try|usd|eur)` of the in-page fallback regex
(puppeteer-scraper.ts:244), in source order. -/
def fallbackTokens : List (List Char) :=
  [['t', 'l'], ['₺'], ['t', 'r', 'y'], ['u', 's', 'd'], ['e', 'u', 'r']]

/-- Anchored matcher for the in-page fallback regex
`(\d+(?:[.,]\d+)?)\s*(tl|₺|try|usd|eur)` with the `i` flag; returns the
whole match (`match[0]`). -/
def fallbackMatchAt (s : List Char) : Option (List Char) :=
  (numCands s).findSome? fun gc =>
    let sp := gc.2.takeWhile jsSpace
    let rest2 := gc.2.dropWhile jsSpace
    fallbackTokens.findSome? fun tok =>
      match litAt tok true rest2 with
      | some (co, _) => some (gc.1 ++ sp ++ co)
      | none => none

/-- Leftmost search returning the characters preceding the match together
with the match (models `text.match(...)` combined with
`text.split(priceMatch[0])[0]`). -/
def scanWithPrefix (f : List Char → Option α) : List Char → Option (List Char × α)
  | [] => (f []).map fun a => ([], a)
  | c :: rest =>
    match f (c :: rest) with
    | some a => some ([], a)
    | none => (scanWithPrefix f rest).map fun pa => (c :: pa.1, pa.2)

/-- The title and price text derived for one matched container element
(puppeteer-scraper.ts:218-252): configured title/price selector cascades;
fallback to the full-text price regex when either is missing — the
fallback overwrites the price text unconditionally and derives the title
from the (trimmed, 100-capped) text before the match when the title is
missing. -/
def derivedTitlePrice (cfg : SiteConfig) (el : Element) : String × String :=
  let title1 := firstSelText el ((splitOnSep ',' [' '] cfg.selectors.title.data).map String.mk)
  let price1 := firstSelText el ((splitOnSep ',' [' '] cfg.selectors.price.data).map String.mk)
  if title1 = "" || price1 = "" then
    match scanWithPrefix fallbackMatchAt el.textContent.data with
    | some (pre, m0) =>
      (if title1 = "" then String.mk ((trimList pre).take 100) else title1, String.mk m0)
    | none => (title1, price1)
  else (title1, price1)

/-- Processing of one matched container element
(puppeteer-scraper.ts:218-268): derive title and price text; skip when the
title or price text is empty or the title has length ≤ 3; parse and
validate the price, skipping invalid prices; build the item. -/
def processElement (cfg : SiteConfig) (url domain : String) (el : Element) :
    Option ScrapedItem :=
  let tp := derivedTitlePrice cfg el
  if tp.1 ≠ "" && tp.2 ≠ "" && tp.1.length > 3 then
    let pr := parsePrice tp.2
    if isValidPrice pr.1 then
      some { title := sanitizeText tp.1, price := tp.2, currency := pr.2,
             region := detectRegion url tp.1, url := url, siteName := domain,
             gameSlug := some (extractGameSlug url tp.1) }
    else none
  else none

/-- The `containers.forEach((container, index) => { if (index > 50) return; ... })`
loop (puppeteer-scraper.ts:215-272): elements at indices `0..50` are
processed in order, later ones are skipped. -/
def processContainers (cfg : SiteConfig) (url domain : String) :
    List Element → Nat → List ScrapedItem
  | [], _ => []
  | el :: rest, idx =>
    if idx > 50 then processContainers cfg url domain rest (idx + 1)
    else
      match processElement cfg url domain el with
      | some item => item :: processContainers cfg url domain rest (idx + 1)
      | none => processContainers cfg url domain rest (idx + 1)

/-- The container-selector loop (puppeteer-scraper.ts:210-275): selectors
in order; a selector with no matches is skipped (`continue`); otherwise its
elements are processed into `results`, and the loop breaks as soon as
`results` is non-empty. -/
def extractLoop (cfg : SiteConfig) (page : Page) (url domain : String) :
    List String → List ScrapedItem → List ScrapedItem
  | [], results => results
  | sel :: rest, results =>
    let containers := page.query sel
    if containers.length = 0 then extractLoop cfg page url domain rest results
    else
      let results' := results ++ processContainers cfg url domain containers 0
      if results'.length > 0 then results'
      else extractLoop cfg page url domain rest results'

/-- `extractItems` (puppeteer-scraper.ts:168): run the in-page extraction
over the container selectors obtained by `config.selectors.container.split(', ')`. -/
def extractItems (cfg : SiteConfig) (page : Page) (url domain : String) :
    List ScrapedItem :=
  extractLoop cfg page url domain
    ((splitOnSep ',' [' '] cfg.selectors.container.data).map String.mk) []

/-- The effect of one puppeteer navigation: either every strategy
(including the fallback) threw, or a loaded page. -/
inductive Nav where
  | err (msg : String)
  | ok (page : Page)

/-- `scrapeUrl` (puppeteer-scraper.ts:20): on a loaded page, extract items;
the outcome succeeds iff at least one item was found, with a descriptive
error otherwise; any thrown error yields a failed outcome carrying its
message. -/
def scrapeUrl (cfg : SiteConfig) (url : String) (nav : Nav) : ScrapingResult :=
  let domain := Helpers.extractDomain url
  match nav with
  | .err msg =>
    { success := false, url := url, items := [], error := some msg,
      responseTime := 0, siteName := domain }
  | .ok page =>
    let items := extractItems cfg page url domain
    { success := decide (items.length > 0), url := url, items := items,
      error := if items.length = 0 then some "No items found with Puppeteer" else none,
      responseTime := 0, siteName := domain }

end PuppeteerScraper

/-! ## Bypass-proxy extractor (`src/scrapers/flaresolverr-scraper.ts`) -/

namespace FlareSolverrScraper

/-- The FlareSolverr service's reply to the `request.get` command:
`status`, the `message` used in the error text when the status is not
`"ok"`, and the returned HTML already cheerio-loaded as a `Page`. -/
structure FlareResponse where
  status : String
  message : String
  page : Page

/-- The combined effect of the two HTTP calls of `scrapeUrl`: the
best-effort `sessions.create` call has no observable outcome (its errors
are swallowed, flaresolverr-scraper.ts:35-43), so only the `request.get`
call is modelled — a transport error or a reply. -/
inductive Fetch where
  | err (msg : String)
  | ok (resp : FlareResponse)

/-- JS `a || b || c || ''` over possibly-missing attribute strings
(`""` and `undefined` are falsy). -/
def firstTruthyAttr (el : Element) : String :=
  match el.attr "title" with
  | some t =>
    if t ≠ "" then t
    else match el.attr "alt" with
      | some a => if a ≠ "" then a
          else match el.attr "data-title" with
            | some d => d
            | none => ""
      | none => match el.attr "data-title" with
        | some d => d
        | none => ""
  | none =>
    match el.attr "alt" with
    | some a => if a ≠ "" then a
        else match el.attr "data-title" with
          | some d => d
          | none => ""
    | none => match el.attr "data-title" with
      | some d => d
      | none => ""

/-- Server-side processing of one container element
(flaresolverr-scraper.ts:69-116): title via the selector cascade
(selectors from `split(',')`, each trimmed) with an attribute fallback
(`title`/`alt`/`data-title`, trimmed); price via its cascade; skip when
either is empty; parse with `Helpers.parsePrice` and validate; build the
item (region hardcoded to `"TR"`). -/
def processElement (cfg : SiteConfig) (url domain : String) (el : Element) :
    Option ScrapedItem :=
  let title0 := firstSelText el
    ((splitOnSep ',' [] cfg.selectors.title.data).map fun l => String.mk (trimList l))
  let title :=
    if title0 = "" then String.mk (trimList (firstTruthyAttr el).data) else title0
  let priceText := firstSelText el
    ((splitOnSep ',' [] cfg.selectors.price.data).map fun l => String.mk (trimList l))
  if title = "" || priceText = "" then none
  else
    let pr := Helpers.parsePrice priceText
    if !Helpers.isValidPrice pr.price then none
    else
      some { title := Helpers.sanitizeText title, price := priceText,
             currency := pr.currency, url := url, siteName := domain,
             gameSlug := some (Helpers.extractGameSlug url title), region := "TR" }

/-- The `$(container).each` extraction (flaresolverr-scraper.ts:69): the
whole comma-separated container selector string is handed to cheerio
unsplit; every matched element is processed (no 50-element cap here). -/
def extractItems (cfg : SiteConfig) (page : Page) (url domain : String) :
    List ScrapedItem :=
  (page.query cfg.selectors.container).filterMap (processElement cfg url domain)

/-- `scrapeUrl` (flaresolverr-scraper.ts:25): a transport error or a
non-`"ok"` status yields a failed outcome; otherwise the HTML is parsed
and the outcome succeeds unconditionally — an empty item list is still a
success (`success: true`, flaresolverr-scraper.ts:121-128). -/
def scrapeUrl (cfg : SiteConfig) (url : String) (fetch : Fetch) : ScrapingResult :=
  let domain := Helpers.extractDomain url
  match fetch with
  | .err msg =>
    { success := false, url := url, items := [], error := some msg,
      responseTime := 0, siteName := domain }
  | .ok resp =>
    if resp.status ≠ "ok" then
      { success := false, url := url, items := [],
        error := some ("FlareSolverr error: " ++ resp.message),
        responseTime := 0, siteName := domain }
    else
      { success := true, url := url, items := extractItems cfg resp.page url domain,
        error := none, responseTime := 0, siteName := domain }

end FlareSolverrScraper

/-! ## Static site configuration (`src/scrapers/hybrid-scraper-factory.ts`) -/

namespace HybridScraperFactory

/-- `FLARESOLVERR_REQUIRED_DOMAINS` (hybrid-scraper-factory.ts:73): the
domains dispatched to the bypass-proxy extractor. -/
def FLARESOLVERR_REQUIRED_DOMAINS : List String :=
  ["oyuneks.com", "liderepin.com"]

/-- `PUPPETEER_REQUIRED_DOMAINS` (hybrid-scraper-factory.ts:78); listed
for completeness, the orchestrator never consults it. -/
def PUPPETEER_REQUIRED_DOMAINS : List String :=
  ["epindigital.com", "turkpin.com", "oyunone.com", "playsultan.com", "epinsultan.com",
   "foxepin.com", "perdigital.com", "kopazar.com", "vatangame.com", "mtcgame.com",
   "bursagb.com", "itemsatis.com", "dijipin.com", "oyunfor.com",
   "inovapin.com", "bynogame.com", "gamesatis.com", "hesap.com.tr", "s2gepin.com",
   "hi2games.com"]

/-- `SITE_CONFIGS` (hybrid-scraper-factory.ts:90), as a key-ordered
association list. -/
def SITE_CONFIGS : List (String × SiteConfig) :=
  [("epindigital.com",
    { name := "EpinDigital", domain := "epindigital.com",
      selectors := { container := "div.product-item",
                     title := "h3.product-name.d-block",
                     price := "div.product-price, div.sales-price.fw-600.fs-18",
                     originalPrice := some ".old-price" },
      waitFor := some "h3.product-name", delay := some 1000,
      maxRetries := some 2, requiresJS := some true }),
   ("turkpin.com",
    { name := "TurkPin", domain := "turkpin.com",
      selectors := { container := "tr",
                     title := "h5, div.product__description, div.short_desc",
                     price := "td.bold",
                     originalPrice := some ".old-price" },
      waitFor := some "h5", delay := some 1000,
      maxRetries := some 2, requiresJS := some true }),
   ("oyunone.com",
    { name := "OyunOne", domain := "oyunone.com",
      selectors := { container := "div.item",
                     title := "div.text1",
                     price := "div.price notranslate, div.new_price.ng-binding",
                     originalPrice := some ".old-price" },
      waitFor := some "div.text1", delay := some 1000,
      maxRetries := some 2, requiresJS := some true }),
   ("playsultan.com",
    { name := "PlaySultan", domain := "playsultan.com",
      selectors := { container := "a div.product_item, div.product_item",
                     title := "h5",
                     price := "span.fiyat",
                     originalPrice := some ".old-price" },
      waitFor := some "div.product_item", delay := some 1000,
      maxRetries := some 2, requiresJS := some true }),
   ("epinsultan.com",
    { name := "EpinSultan", domain := "epinsultan.com",
      selectors := { container := "a div.product_item, div.product_item",
                     title := "h5",
                     price := "span.fiyat",
                     originalPrice := some ".old-price" },
      waitFor := some "div.product_item", delay := some 1000,
      maxRetries := some 2, requiresJS := some true }),
   ("foxepin.com",
    { name := "FoxEpin", domain := "foxepin.com",
      selectors := { container := ".product-item, .product-card",
                     title := "h3.product-name.d-block",
                     price := "div.product-price",
                     originalPrice := some ".old-price" },
      waitFor := some "h3.product-name", delay := some 1000,
      maxRetries := some 2, requiresJS := some true }),
   ("perdigital.com",
    { name := "PerDigital", domain := "perdigital.com",
      selectors := { container := "tr, .product-row, .product",
                     title := "td.text-center, .product-name, .title",
                     price := "span.text-center.semi-bold, .price, .fiyat",
                     originalPrice := some ".old-price" },
      waitFor := some "tr", delay := some 1500,
      maxRetries := some 3, requiresJS := some true }),
   ("kopazar.com",
    { name := "Kopazar", domain := "kopazar.com",
      selectors := { container := "div.col-12 div.card div.list-items",
                     title := "a strong",
                     price := "div.d-flex.align-items-center.justify-content-end strong",
                     originalPrice := some ".old-price" },
      waitFor := some "div.card", delay := some 1500,
      maxRetries := some 2, requiresJS := some true }),
   ("vatangame.com",
    { name := "VatanGame", domain := "vatangame.com",
      selectors := { container := ".card, div.card, [class*=\"card\"], div.row, .row, [class*=\"row\"], div.col, .product, .item",
                     title := "p, span, div, h1, h2, h3, h4, h5, a, strong, [class*=\"font-bold\"], [class*=\"title\"]",
                     price := "p, span, div, strong, [class*=\"font-bold\"], [class*=\"price\"], [class*=\"fiyat\"], [style*=\"font-size\"]",
                     originalPrice := some "[style*=\"line-through\"], .old-price, [class*=\"old\"]" },
      waitFor := some "body", delay := some 5000,
      maxRetries := some 5, requiresJS := some true }),
   ("mtcgame.com",
    { name := "MTCGame", domain := "mtcgame.com",
      selectors := { container := "a.border-2.border-amber-600\\/10",
                     title := "h3.text-white.font-medium.text-sm.line-clamp-2",
                     price := "div.text-right.bg-\\[\\#7CFF6B33\\] p.text-sm.font-medium.text-white",
                     originalPrice := some ".old-price" },
      waitFor := some "a.border-2.border-amber-600\\/10", delay := some 1000,
      maxRetries := some 2, requiresJS := some true }),
   ("bursagb.com",
    { name := "BursaGB", domain := "bursagb.com",
      selectors := { container := ".product-item, .product-card, tr, .product",
                     title := "h3.product-name.d-block, h3.product-name, .title",
                     price := "div.product-price, .price, .fiyat",
                     originalPrice := some ".old-price" },
      waitFor := some ".product-item", delay := some 1500,
      maxRetries := some 3, requiresJS := some true }),
   ("liderepin.com",
    { name := "LiderEpin", domain := "liderepin.com",
      selectors := { container := ".product-item, .product, tr",
                     title := "h3.product-name.d-block, h3.product-name, .title",
                     price := "div.product-price, .price, .fiyat",
                     originalPrice := some ".old-price" },
      waitFor := some ".product-item", delay := some 1500,
      maxRetries := some 3, requiresJS := some true }),
   ("oyuneks.com",
    { name := "OyunEks", domain := "oyuneks.com",
      selectors := { container := "button.productListHorizontal.detailProductButton, .productListHorizontal",
                     title := "div.productListHorizontalDetailTitle, .productListHorizontalDetailTitle",
                     price := "div.productListHorizontalDetailPrice, .productListHorizontalDetailPrice",
                     originalPrice := some ".old-price" },
      waitFor := some ".productListHorizontal", delay := some 3000,
      maxRetries := some 3, requiresJS := some true }),
   ("dijipin.com",
    { name := "DijiPin", domain := "dijipin.com",
      selectors := { container := ".product-item, .product, tr",
                     title := "h3.product-name.d-block, h3.product-name, .title",
                     price := "div.sales-price.fw-600.fs-18, .sales-price, .price, .fiyat",
                     originalPrice := some ".old-price" },
      waitFor := some ".product-item", delay := some 1500,
      maxRetries := some 3, requiresJS := some true }),
   ("itemsatis.com",
    { name := "ItemSatis", domain := "itemsatis.com",
      selectors := { container := "div.relative.border.rounded-lg",
                     title := "h3.text-base.font-medium.\\!text-white",
                     price := "div.text-2xl.font-medium.text-\\[\\#ffd679\\]",
                     originalPrice := some "div.text-base.line-through.text-gray-400" },
      waitFor := some "div.relative.border.rounded-lg", delay := some 1000,
      maxRetries := some 2, requiresJS := some true }),
   ("inovapin.com",
    { name := "InovaPin", domain := "inovapin.com",
      selectors := { container := "div.col-lg-6.col-md-6.col-xs-12.col-12.product-base",
                     title := "h3.product-name.d-block, h3.product-name, .title",
                     price := "div.sales-price.fw-600.fs-18",
                     originalPrice := some ".old-price" },
      waitFor := some "div.col-lg-6.col-md-6.col-xs-12.col-12.product-base",
      delay := some 1500, maxRetries := some 3, requiresJS := some true }),
   ("bynogame.com",
    { name := "BynoGame", domain := "bynogame.com",
      selectors := { container := "div.itemCard",
                     title := "h2.font-weight-bolder.text-left",
                     price := "div.col-lg-4.col-md-5",
                     originalPrice := some ".old-price" },
      waitFor := some "div.itemCard", delay := some 1500,
      maxRetries := some 2, requiresJS := some true }),
   ("gamesatis.com",
    { name := "GameSatis", domain := "gamesatis.com",
      selectors := { container := "a.product",
                     title := "h3",
                     price := "div.selling-price",
                     originalPrice := some "div.original-price" },
      waitFor := some "a.product", delay := some 1500,
      maxRetries := some 3, requiresJS := some true }),
   ("hesap.com.tr",
    { name := "HesapComTr", domain := "hesap.com.tr",
      selectors := { container := "li.col-12.prd",
                     title := "a.d-flex",
                     price := "div#newprice_lg282.new",
                     originalPrice := some ".old-price" },
      waitFor := some "li.col-12.prd", delay := some 1500,
      maxRetries := some 2, requiresJS := some true }),
   ("s2gepin.com",
    { name := "S2GEpin", domain := "s2gepin.com",
      selectors := { container := ".product-item, .product, tr",
                     title := "h3.product-name.d-block, h3.product-name, .title",
                     price := "div.product-price, .price, .fiyat",
                     originalPrice := some ".old-price" },
      waitFor := some ".product-item", delay := some 1500,
      maxRetries := some 3, requiresJS := some true }),
   ("hi2games.com",
    { name := "Hi2Games", domain := "hi2games.com",
      selectors := { container := "div.table-container.product",
                     title := "div.table-item.name p.text-header:first-child",
                     price := "div.table-item.price p.text-header.current",
                     originalPrice := some "div.table-item.price p.text-header.old" },
      waitFor := some "div.table-container.product", delay := some 1500,
      maxRetries := some 2, requiresJS := some true }),
   ("oyunfor.com",
    { name := "OyunFor", domain := "oyunfor.com",
      selectors := { container := ".product-item, .productBox, tr, .product",
                     title := "h3.productText, h3, .title, .product-name",
                     price := "div.notranslate, .price, .fiyat",
                     originalPrice := some ".old-price" },
      waitFor := some ".productBox", delay := some 1500,
      maxRetries := some 3, requiresJS := some true })]

end HybridScraperFactory

/-! ## Batch orchestrator (`src/http-orchestrator.ts`) -/

namespace HttpOrchestrator

/-- The ambient effects of one batch run, as per-URL effect descriptions:
the puppeteer navigation outcome, the FlareSolverr fetch outcome, and an
optional exception thrown inside `scrapeUrlHttp`'s `try` block outside the
scraper call proper (e.g. browser construction or `scraper.close()`, the
message of which `scrapeUrlHttp`'s `catch` captures). -/
structure World where
  nav : String → PuppeteerScraper.Nav
  flareFetch : String → FlareSolverrScraper.Fetch
  scraperCrash : String → Option String

/-- `getGenericConfig` (http-orchestrator.ts:122): the synthesized profile
for a domain without a `SITE_CONFIGS` entry. -/
def getGenericConfig (domain : String) : SiteConfig :=
  { name := domain, domain := domain,
    selectors :=
      { container := ".product, .item, .card, .product-item, div, article, section, tr",
        title := ".title, .name, .product-title, .product-name, h1, h2, h3, h4, h5, [class*=\"product\"], [class*=\"title\"], [class*=\"name\"]",
        price := ".price, .cost, .amount, .product-price, [class*=\"price\"], [class*=\"fiyat\"], [class*=\"cost\"], span, div, td",
        originalPrice := some ".old-price, .original-price, .was-price" },
    waitFor := none, delay := some 1000, maxRetries := some 3,
    requiresJS := some false }

/-- `SITE_CONFIGS[domain] || this.getGenericConfig(domain)`
(http-orchestrator.ts:88). -/
def siteConfigFor (domain : String) : SiteConfig :=
  (HybridScraperFactory.SITE_CONFIGS.lookup domain).getD (getGenericConfig domain)

/-- The body of `scrapeUrlHttp`'s `try` block (http-orchestrator.ts:87-108):
resolve the config, dispatch on membership of the domain in
`FLARESOLVERR_REQUIRED_DOMAINS`; `Except.error` models an exception
escaping to the `catch`. -/
def scrapeUrlHttpTry (w : World) (url domain : String) :
    Except String ScrapingResult :=
  match w.scraperCrash url with
  | some msg => .error msg
  | none =>
    let config := siteConfigFor domain
    if domain ∈ HybridScraperFactory.FLARESOLVERR_REQUIRED_DOMAINS then
      .ok (FlareSolverrScraper.scrapeUrl config url (w.flareFetch url))
    else
      .ok (PuppeteerScraper.scrapeUrl config url (w.nav url))

/-- `scrapeUrlHttp` (http-orchestrator.ts:83): the `catch` converts any
thrown error into a failed result for the URL, so the function is total. -/
def scrapeUrlHttp (w : World) (url : String) : ScrapingResult :=
  let domain := Helpers.extractDomain url
  match scrapeUrlHttpTry w url domain with
  | .ok r => r
  | .error e =>
    { success := false, url := url, items := [], error := some e,
      responseTime := 0, siteName := domain }

/-- JS `r.error || 'Unknown error'` (`undefined` and `""` are falsy). -/
def errorOrUnknown (e : Option String) : String :=
  match e with
  | some s => if s = "" then "Unknown error" else s
  | none => "Unknown error"

/-- `createBatchResult` (http-orchestrator.ts:139): counts, the item total
over *all* results, and the error strings of the failed results.  (The
summary printing and the fire-and-forget N8N delivery are side effects
with no bearing on the returned value.) -/
def createBatchResult (urls : List String) (results : List ScrapingResult)
    (batchId : String) (timestamp : Nat) : BatchResult :=
  let successCount := (results.filter fun r => r.success).length
  let failedCount := results.length - successCount
  let totalItems := results.foldl (fun sum r => sum + r.items.length) 0
  let errors := (results.filter fun r => !r.success).map fun r => errorOrUnknown r.error
  { batchId := batchId, timestamp := timestamp, totalUrls := urls.length,
    successCount := successCount, failedCount := failedCount,
    results := results, totalItems := totalItems, errors := errors }

/-- `scrapeUrls` (http-orchestrator.ts:42): every URL is processed in input
order (strictly sequentially), each contributing exactly one result; the
loop's own `catch` (http-orchestrator.ts:67-77) is unreachable in this
model because `scrapeUrlHttp` is total — in the source nothing in the loop
before the result is recorded can throw, for the same reason.  The
progress callback and the inter-request sleep are effect-free here. -/
def scrapeUrls (w : World) (urls : List String) (batchId : String)
    (timestamp : Nat) : BatchResult :=
  createBatchResult urls (urls.map (scrapeUrlHttp w)) batchId timestamp

end HttpOrchestrator

/-! ## Downstream delivery client (`src/utils/n8n-client.ts`) -/

namespace N8NClient

/-- The client's private `parsePrice` (n8n-client.ts:92) is a verbatim copy
of `Helpers.parsePrice` (helpers.ts:79); it is embedded by reference. -/
def parsePrice (priceText : String) : Helpers.PriceResult :=
  Helpers.parsePrice priceText

/-- The flat price records one `ScrapingResult` contributes to the payload
(n8n-client.ts:18-35): only results with `success && items.length > 0` are
considered, and an item is kept only when its raw price text re-parses to a
strictly positive value. -/
def priceRecordsOfResult (ts : Nat) (r : ScrapingResult) : List ScrapedPrice :=
  if r.success && r.items.length > 0 then
    r.items.filterMap fun item =>
      let pr := parsePrice item.price
      if pr.price.isPos then
        some { price := pr.price, currency := pr.currency, region := item.region,
               product_name := item.title, url := item.url,
               batch_timestamp := ts }
      else none
  else []

/-- The payload `sendBatchData` builds (n8n-client.ts:37-47). -/
def buildPayload (br : BatchResult) : N8NWebhookPayload :=
  { batchId := br.batchId, timestamp := br.timestamp,
    items := ((br.results.map (priceRecordsOfResult br.timestamp)).flatten),
    metadata := { totalUrls := br.totalUrls, successCount := br.successCount,
                  failedCount := br.failedCount, totalItems := br.totalItems } }

/-- The observable outcome of one `axios.post` of the payload. -/
inductive PostOutcome where
  | transportError (msg : String)
  | status (code : Nat)

/-- `sendWithRetry` (n8n-client.ts:67), instrumented with the number of
POST attempts actually performed: the method posts exactly once — the
`maxRetries` field (n8n-client.ts:7) is never consulted — returning `true`
on a 2xx status and `false` on any other status or transport error.
`post payload n` is the outcome the network would give the (n+1)-th
attempt at posting `payload`. -/
def sendWithRetry (payload : N8NWebhookPayload)
    (post : N8NWebhookPayload → Nat → PostOutcome) : Bool × Nat :=
  match post payload 0 with
  | .transportError _ => (false, 1)
  | .status code => (if 200 ≤ code && code < 300 then true else false, 1)

/-- `sendBatchData` (n8n-client.ts:13): build the payload and send it;
the boolean outcome of `sendWithRetry` is returned, never an exception. -/
def sendBatchData (br : BatchResult) (post : N8NWebhookPayload → Nat → PostOutcome) :
    Bool :=
  (sendWithRetry (buildPayload br) post).1

end N8NClient

/-! ## Concrete fixtures

Concrete pages, worlds and batches used to instantiate the theorems below
on closed inputs. -/

/-- An element carrying a valid title and price under `.title`/`.price`. -/
def elGood : Element :=
  { sub := fun sel =>
      if sel = ".title" then some "Valorant 100 VP"
      else if sel = ".price" then some "100 TL" else none,
    attr := fun _ => none, textContent := "" }

/-- A page with one good product under the generic `.product` selector. -/
def pageGood : Page := ⟨fun sel => if sel = ".product" then [elGood] else []⟩

/-- A page with no elements at all. -/
def pageEmpty : Page := ⟨fun _ => []⟩

/-- A FlareSolverr reply with status `"ok"` whose HTML contains nothing. -/
def respOkEmpty : FlareSolverrScraper.FlareResponse := ⟨"ok", "", pageEmpty⟩

/-- A world where nothing succeeds and nothing crashes. -/
def wBase : HttpOrchestrator.World :=
  { nav := fun _ => .err "navigation failed",
    flareFetch := fun _ => .err "flaresolverr unreachable",
    scraperCrash := fun _ => none }

/-- A world where `https://badsite.example/x` throws during dispatch and
`https://goodsite.example/list` loads a page with one valid product. -/
def wCrashGood : HttpOrchestrator.World :=
  { nav := fun u => if u = "https://goodsite.example/list" then .ok pageGood
      else .err "navigation failed",
    flareFetch := fun _ => .err "flaresolverr unreachable",
    scraperCrash := fun u => if u = "https://badsite.example/x" then some "boom"
      else none }

/-- Element for the 51-element-cap counterexample. -/
def elC9 : Element :=
  { sub := fun sel =>
      if sel = ".t" then some "Great Game Pack"
      else if sel = ".p" then some "50 TL" else none,
    attr := fun _ => none, textContent := "" }

/-- Single-selector config for the cap counterexample. -/
def cfgC9 : SiteConfig :=
  { name := "x", domain := "x.example",
    selectors := { container := ".c", title := ".t", price := ".p" } }

/-- A page on which the `.c` selector matches 52 valid product elements. -/
def pageC9 : Page := ⟨fun sel => if sel = ".c" then List.replicate 52 elC9 else []⟩

/-- An item whose raw price text re-parses to a positive value. -/
def itemKept : ScrapedItem :=
  { title := "Prod A", price := "10 TL", currency := "TRY", region := "TR",
    url := "https://s.example/a", siteName := "s.example" }

/-- An item whose raw price text contains no digits (re-parses to 0). -/
def itemDropped : ScrapedItem :=
  { title := "Prod B", price := "no digits", currency := "TRY", region := "TR",
    url := "https://s.example/b", siteName := "s.example" }

/-- A one-URL batch whose single succeeded result holds one payable and one
digit-free item. -/
def brC10 : BatchResult :=
  { batchId := "b", timestamp := 0, totalUrls := 1, successCount := 1,
    failedCount := 0,
    results := [{ success := true, url := "https://s.example/l",
                  items := [itemKept, itemDropped], error := none,
                  responseTime := 0, siteName := "s.example" }],
    totalItems := 2, errors := [] }

/-! ## Shared lemmas -/

theorem flare_scrapeUrl_ok (cfg : SiteConfig) (url : String)
    (r : FlareSolverrScraper.FlareResponse) (hs : r.status = "ok") :
    FlareSolverrScraper.scrapeUrl cfg url (.ok r) =
      { success := true, url := url,
        items := FlareSolverrScraper.extractItems cfg r.page url
          (Helpers.extractDomain url),
        error := none, responseTime := 0,
        siteName := Helpers.extractDomain url } := by
  unfold FlareSolverrScraper.scrapeUrl
  dsimp only
  rw [if_neg (not_not_intro hs)]

theorem flare_scrapeUrl_notOk (cfg : SiteConfig) (url : String)
    (r : FlareSolverrScraper.FlareResponse) (hs : r.status ≠ "ok") :
    FlareSolverrScraper.scrapeUrl cfg url (.ok r) =
      { success := false, url := url, items := [],
        error := some ("FlareSolverr error: " ++ r.message),
        responseTime := 0, siteName := Helpers.extractDomain url } := by
  unfold FlareSolverrScraper.scrapeUrl
  dsimp only
  rw [if_pos hs]

theorem flare_scrapeUrl_url (cfg : SiteConfig) (url : String)
    (f : FlareSolverrScraper.Fetch) :
    (FlareSolverrScraper.scrapeUrl cfg url f).url = url := by
  cases f with
  | err m => rfl
  | ok r =>
    by_cases hs : r.status = "ok"
    · rw [flare_scrapeUrl_ok cfg url r hs]
    · rw [flare_scrapeUrl_notOk cfg url r hs]

theorem pupp_scrapeUrl_url (cfg : SiteConfig) (url : String)
    (nav : PuppeteerScraper.Nav) :
    (PuppeteerScraper.scrapeUrl cfg url nav).url = url := by
  cases nav <;> rfl

theorem scrapeUrlHttp_crash (w : HttpOrchestrator.World) (url msg : String)
    (hc : w.scraperCrash url = some msg) :
    HttpOrchestrator.scrapeUrlHttp w url =
      { success := false, url := url, items := [], error := some msg,
        responseTime := 0, siteName := Helpers.extractDomain url } := by
  unfold HttpOrchestrator.scrapeUrlHttp HttpOrchestrator.scrapeUrlHttpTry
  rw [hc]

theorem scrapeUrlHttp_flare (w : HttpOrchestrator.World) (url : String)
    (hc : w.scraperCrash url = none)
    (hm : Helpers.extractDomain url ∈ HybridScraperFactory.FLARESOLVERR_REQUIRED_DOMAINS) :
    HttpOrchestrator.scrapeUrlHttp w url =
      FlareSolverrScraper.scrapeUrl
        (HttpOrchestrator.siteConfigFor (Helpers.extractDomain url)) url
        (w.flareFetch url) := by
  unfold HttpOrchestrator.scrapeUrlHttp HttpOrchestrator.scrapeUrlHttpTry
  rw [hc]
  dsimp only
  rw [if_pos hm]

theorem scrapeUrlHttp_pupp (w : HttpOrchestrator.World) (url : String)
    (hc : w.scraperCrash url = none)
    (hm : Helpers.extractDomain url ∉ HybridScraperFactory.FLARESOLVERR_REQUIRED_DOMAINS) :
    HttpOrchestrator.scrapeUrlHttp w url =
      PuppeteerScraper.scrapeUrl
        (HttpOrchestrator.siteConfigFor (Helpers.extractDomain url)) url
        (w.nav url) := by
  unfold HttpOrchestrator.scrapeUrlHttp HttpOrchestrator.scrapeUrlHttpTry
  rw [hc]
  dsimp only
  rw [if_neg hm]

theorem scrapeUrlHttp_url (w : HttpOrchestrator.World) (url : String) :
    (HttpOrchestrator.scrapeUrlHttp w url).url = url := by
  cases hc : w.scraperCrash url with
  | some msg => rw [scrapeUrlHttp_crash w url msg hc]
  | none =>
    by_cases hm : Helpers.extractDomain url ∈ HybridScraperFactory.FLARESOLVERR_REQUIRED_DOMAINS
    · rw [scrapeUrlHttp_flare w url hc hm]; exact flare_scrapeUrl_url ..
    · rw [scrapeUrlHttp_pupp w url hc hm]; exact pupp_scrapeUrl_url ..

theorem flare_scrapeUrl_fail_items (cfg : SiteConfig) (url : String)
    (f : FlareSolverrScraper.Fetch)
    (h : (FlareSolverrScraper.scrapeUrl cfg url f).success = false) :
    (FlareSolverrScraper.scrapeUrl cfg url f).items = [] := by
  cases f with
  | err m => rfl
  | ok r =>
    by_cases hs : r.status = "ok"
    · rw [flare_scrapeUrl_ok cfg url r hs] at h
      simp at h
    · rw [flare_scrapeUrl_notOk cfg url r hs]

theorem pupp_scrapeUrl_fail_items (cfg : SiteConfig) (url : String)
    (nav : PuppeteerScraper.Nav)
    (h : (PuppeteerScraper.scrapeUrl cfg url nav).success = false) :
    (PuppeteerScraper.scrapeUrl cfg url nav).items = [] := by
  cases nav with
  | err m => rfl
  | ok page =>
    unfold PuppeteerScraper.scrapeUrl at h ⊢
    dsimp only at h ⊢
    rw [decide_eq_false_iff_not] at h
    exact List.length_eq_zero.mp (by omega)

theorem scrapeUrlHttp_fail_items (w : HttpOrchestrator.World) (url : String)
    (h : (HttpOrchestrator.scrapeUrlHttp w url).success = false) :
    (HttpOrchestrator.scrapeUrlHttp w url).items = [] := by
  cases hc : w.scraperCrash url with
  | some msg => rw [scrapeUrlHttp_crash w url msg hc]
  | none =>
    by_cases hm : Helpers.extractDomain url ∈ HybridScraperFactory.FLARESOLVERR_REQUIRED_DOMAINS
    · rw [scrapeUrlHttp_flare w url hc hm] at h ⊢
      exact flare_scrapeUrl_fail_items _ _ _ h
    · rw [scrapeUrlHttp_pupp w url hc hm] at h ⊢
      exact pupp_scrapeUrl_fail_items _ _ _ h

theorem foldl_add_items (l : List ScrapingResult) (n : Nat) :
    l.foldl (fun s r => s + r.items.length) n
      = n + (l.map fun r => r.items.length).sum := by
  induction l generalizing n with
  | nil => simp
  | cons r t ih => simp [ih, Nat.add_assoc]

theorem sum_items_eq_filter_success (l : List ScrapingResult)
    (h : ∀ r ∈ l, r.success = false → r.items = []) :
    (l.map fun r => r.items.length).sum
      = ((l.filter fun r => r.success).map fun r => r.items.length).sum := by
  induction l with
  | nil => rfl
  | cons r t ih =>
    have ht : ∀ x ∈ t, x.success = false → x.items = [] :=
      fun x hx => h x (List.mem_cons_of_mem _ hx)
    cases hr : r.success with
    | true => simp [List.filter_cons, hr, ih ht]
    | false =>
      have : r.items = [] := h r (List.mem_cons_self ..) hr
      simp [List.filter_cons, hr, ih ht, this]

theorem scrapeUrls_results_urls (w : HttpOrchestrator.World) (urls : List String)
    (batchId : String) (timestamp : Nat) :
    (HttpOrchestrator.scrapeUrls w urls batchId timestamp).results.map
      (fun r => r.url) = urls := by
  unfold HttpOrchestrator.scrapeUrls HttpOrchestrator.createBatchResult
  dsimp only
  induction urls with
  | nil => rfl
  | cons u t ih => simp only [List.map_cons, scrapeUrlHttp_url, ih]

/-! ## The claims -/

/-- C1: for every list of input URLs (and every ambient behaviour of the
scrapers), the `BatchResult` of `HttpOrchestrator.scrapeUrls` has
`totalUrls` equal to the number of requested URLs, satisfies
`successCount + failedCount = totalUrls`, carries exactly one
`ScrapingResult` per URL in input order, and its `totalItems` equals the
sum of the item-list lengths over the succeeded outcomes. -/
theorem C1_batch_invariants (w : HttpOrchestrator.World) (urls : List String)
    (batchId : String) (timestamp : Nat) :
    (HttpOrchestrator.scrapeUrls w urls batchId timestamp).totalUrls = urls.length ∧
    (HttpOrchestrator.scrapeUrls w urls batchId timestamp).successCount
        + (HttpOrchestrator.scrapeUrls w urls batchId timestamp).failedCount
      = (HttpOrchestrator.scrapeUrls w urls batchId timestamp).totalUrls ∧
    (HttpOrchestrator.scrapeUrls w urls batchId timestamp).results.map
      (fun r => r.url) = urls ∧
    (HttpOrchestrator.scrapeUrls w urls batchId timestamp).totalItems
      = (((HttpOrchestrator.scrapeUrls w urls batchId timestamp).results.filter
          (fun r => r.success)).map (fun r => r.items.length)).sum := by
  refine ⟨rfl, ?_, scrapeUrls_results_urls .., ?_⟩
  · show (List.filter _ _).length + ((urls.map _).length - (List.filter _ _).length)
      = urls.length
    rw [Nat.add_sub_cancel' (List.length_filter_le _ _), List.length_map]
  · show List.foldl _ 0 _ = _
    rw [foldl_add_items, Nat.zero_add]
    exact sum_items_eq_filter_success _ fun r hr hf => by
      obtain ⟨u, _, rfl⟩ := List.mem_map.mp hr
      exact scrapeUrlHttp_fail_items w u hf

/-- C2: the rendering (puppeteer) extractor's outcome succeeds iff at least
one item was extracted, and a zero-item outcome is a failure carrying a
descriptive error message (`"No items found with Puppeteer"` when the page
loaded); the bypass (FlareSolverr) extractor's outcome succeeds whenever
the fetch reports status `"ok"` and parsing completes (which it always
does), even when the extracted item list is empty. -/
theorem C2_empty_result_asymmetry :
    (∀ (cfg : SiteConfig) (url : String) (nav : PuppeteerScraper.Nav),
      (PuppeteerScraper.scrapeUrl cfg url nav).success = true ↔
        (PuppeteerScraper.scrapeUrl cfg url nav).items ≠ []) ∧
    (∀ (cfg : SiteConfig) (url : String) (nav : PuppeteerScraper.Nav),
      (PuppeteerScraper.scrapeUrl cfg url nav).items = [] →
        ∃ msg, (PuppeteerScraper.scrapeUrl cfg url nav).error = some msg) ∧
    (∀ (cfg : SiteConfig) (url : String) (page : Page),
      (PuppeteerScraper.scrapeUrl cfg url (.ok page)).items = [] →
        (PuppeteerScraper.scrapeUrl cfg url (.ok page)).error
          = some "No items found with Puppeteer") ∧
    (∀ (cfg : SiteConfig) (url : String) (r : FlareSolverrScraper.FlareResponse),
      r.status = "ok" →
        (FlareSolverrScraper.scrapeUrl cfg url (.ok r)).success = true) := by
  refine ⟨fun cfg url nav => ?_, fun cfg url nav h => ?_, fun cfg url page h => ?_,
    fun cfg url r hs => ?_⟩
  · cases nav with
    | err m => simp [PuppeteerScraper.scrapeUrl]
    | ok page =>
      simp [PuppeteerScraper.scrapeUrl, List.length_pos]
  · cases nav with
    | err m => exact ⟨m, rfl⟩
    | ok page =>
      unfold PuppeteerScraper.scrapeUrl at h ⊢
      dsimp only at h ⊢
      simp [h]
  · unfold PuppeteerScraper.scrapeUrl at h ⊢
    dsimp only at h ⊢
    simp [h]
  · rw [flare_scrapeUrl_ok cfg url r hs]

/-- Witness for C2 at concrete inputs: on a page with no matching content,
the bypass extractor (status `"ok"`) succeeds with zero items while the
rendering extractor fails with the descriptive message. -/
theorem C2_empty_result_asymmetry_witness :
    ((FlareSolverrScraper.scrapeUrl (HttpOrchestrator.getGenericConfig "site.example")
        "https://site.example/" (.ok respOkEmpty)).success = true ∧
     (FlareSolverrScraper.scrapeUrl (HttpOrchestrator.getGenericConfig "site.example")
        "https://site.example/" (.ok respOkEmpty)).items = []) ∧
    ((PuppeteerScraper.scrapeUrl (HttpOrchestrator.getGenericConfig "site.example")
        "https://site.example/" (.ok pageEmpty)).error
        = some "No items found with Puppeteer" ∧
     (PuppeteerScraper.scrapeUrl (HttpOrchestrator.getGenericConfig "site.example")
        "https://site.example/" (.ok pageEmpty)).success = false) :=
  ⟨⟨C2_empty_result_asymmetry.2.2.2 _ _ respOkEmpty rfl, by decide⟩,
   ⟨C2_empty_result_asymmetry.2.2.1 _ _ pageEmpty (by decide), by decide⟩⟩

/-- C3: an error thrown while processing one URL is caught by the
orchestrator and converted into a failed `ScrapingResult` (success `false`,
empty items, the captured message) for that URL, and every URL of the batch
still gets exactly one outcome, in input order (`scrapeUrls` is total: no
per-URL exception reaches its caller). -/
theorem C3_per_url_error_isolation (w : HttpOrchestrator.World)
    (urls : List String) (batchId : String) (timestamp : Nat)
    (url msg : String) (hc : w.scraperCrash url = some msg) :
    HttpOrchestrator.scrapeUrlHttp w url =
      { success := false, url := url, items := [], error := some msg,
        responseTime := 0, siteName := Helpers.extractDomain url } ∧
    (HttpOrchestrator.scrapeUrls w urls batchId timestamp).results.map
      (fun r => r.url) = urls ∧
    (HttpOrchestrator.scrapeUrls w urls batchId timestamp).results.length
      = urls.length :=
  ⟨scrapeUrlHttp_crash w url msg hc, scrapeUrls_results_urls ..,
   by rw [show (HttpOrchestrator.scrapeUrls w urls batchId timestamp).results
        = urls.map (HttpOrchestrator.scrapeUrlHttp w) from rfl, List.length_map]⟩

set_option maxRecDepth 8000 in
/-- Witness for C3 on `[bad, good]`: the bad URL's dispatch throws and is
converted to a failed outcome, while the good URL is still processed and
succeeds. -/
theorem C3_per_url_error_isolation_witness :
    wCrashGood.scraperCrash "https://badsite.example/x" = some "boom" ∧
    (HttpOrchestrator.scrapeUrls wCrashGood
        ["https://badsite.example/x", "https://goodsite.example/list"]
        "b1" 0).results.map (fun r => r.url)
      = ["https://badsite.example/x", "https://goodsite.example/list"] ∧
    (HttpOrchestrator.scrapeUrls wCrashGood
        ["https://badsite.example/x", "https://goodsite.example/list"]
        "b1" 0).results.map (fun r => r.success) = [false, true] :=
  ⟨rfl,
   (C3_per_url_error_isolation wCrashGood
      ["https://badsite.example/x", "https://goodsite.example/list"] "b1" 0
      "https://badsite.example/x" "boom" rfl).2.1,
   by decide⟩
/-- C4: the orchestrator dispatches a URL to the bypass (FlareSolverr)
extractor iff its extracted domain is in the bypass-required set — exactly
`oyuneks.com` and `liderepin.com` — and to the rendering (puppeteer)
extractor otherwise; the profile used is the registered one or, for a
domain without a `SITE_CONFIGS` entry, the synthesized generic profile. -/
theorem C4_dispatch_by_domain :
    HybridScraperFactory.FLARESOLVERR_REQUIRED_DOMAINS
      = ["oyuneks.com", "liderepin.com"] ∧
    (∀ (w : HttpOrchestrator.World) (url : String), w.scraperCrash url = none →
      (Helpers.extractDomain url ∈ HybridScraperFactory.FLARESOLVERR_REQUIRED_DOMAINS →
        HttpOrchestrator.scrapeUrlHttp w url =
          FlareSolverrScraper.scrapeUrl
            (HttpOrchestrator.siteConfigFor (Helpers.extractDomain url)) url
            (w.flareFetch url)) ∧
      (Helpers.extractDomain url ∉ HybridScraperFactory.FLARESOLVERR_REQUIRED_DOMAINS →
        HttpOrchestrator.scrapeUrlHttp w url =
          PuppeteerScraper.scrapeUrl
            (HttpOrchestrator.siteConfigFor (Helpers.extractDomain url)) url
            (w.nav url))) ∧
    (∀ d, HybridScraperFactory.SITE_CONFIGS.lookup d = none →
      HttpOrchestrator.siteConfigFor d = HttpOrchestrator.getGenericConfig d) := by
  refine ⟨rfl,
    fun w url hc => ⟨fun hm => scrapeUrlHttp_flare w url hc hm,
      fun hm => scrapeUrlHttp_pupp w url hc hm⟩,
    fun d hd => ?_⟩
  unfold HttpOrchestrator.siteConfigFor
  rw [hd]
  rfl

set_option maxRecDepth 8000 in
/-- Witness for C4: `www.oyuneks.com` (bypass-set member) goes to the
FlareSolverr extractor; an unregistered domain (which has no
`SITE_CONFIGS` entry) goes to the puppeteer extractor. -/
theorem C4_dispatch_by_domain_witness :
    Helpers.extractDomain "https://www.oyuneks.com/p"
        ∈ HybridScraperFactory.FLARESOLVERR_REQUIRED_DOMAINS ∧
    HttpOrchestrator.scrapeUrlHttp wBase "https://www.oyuneks.com/p" =
      FlareSolverrScraper.scrapeUrl
        (HttpOrchestrator.siteConfigFor (Helpers.extractDomain "https://www.oyuneks.com/p"))
        "https://www.oyuneks.com/p" (wBase.flareFetch "https://www.oyuneks.com/p") ∧
    Helpers.extractDomain "https://unknownshop.example/x"
        ∉ HybridScraperFactory.FLARESOLVERR_REQUIRED_DOMAINS ∧
    HttpOrchestrator.scrapeUrlHttp wBase "https://unknownshop.example/x" =
      PuppeteerScraper.scrapeUrl
        (HttpOrchestrator.siteConfigFor (Helpers.extractDomain "https://unknownshop.example/x"))
        "https://unknownshop.example/x" (wBase.nav "https://unknownshop.example/x") ∧
    HybridScraperFactory.SITE_CONFIGS.lookup
      (Helpers.extractDomain "https://unknownshop.example/x") = none :=
  ⟨by decide, (C4_dispatch_by_domain.2.1 wBase _ rfl).1 (by decide), by decide,
   (C4_dispatch_by_domain.2.1 wBase _ rfl).2 (by decide), by decide⟩

/-- C5 (supports the code-bug finding): `sendWithRetry` performs exactly
one POST attempt for every payload and network behaviour — the
`maxRetries = 1` field is dead, so a failed first attempt is *not*
retried — returning `true` exactly on a 2xx status and `false` (never an
exception) on any other status or transport error. -/
theorem C5_send_single_attempt :
    (∀ (payload : N8NWebhookPayload)
        (post : N8NWebhookPayload → Nat → N8NClient.PostOutcome),
      (N8NClient.sendWithRetry payload post).2 = 1) ∧
    N8NClient.sendWithRetry (N8NClient.buildPayload brC10)
        (fun _ _ => .transportError "ECONNREFUSED") = (false, 1) ∧
    (N8NClient.sendWithRetry (N8NClient.buildPayload brC10)
        (fun _ _ => .status 200)).1 = true ∧
    (N8NClient.sendWithRetry (N8NClient.buildPayload brC10)
        (fun _ _ => .status 500)).1 = false ∧
    N8NClient.sendBatchData brC10 (fun _ _ => .transportError "ECONNREFUSED")
      = false := by
  refine ⟨fun payload post => ?_, rfl, rfl, rfl, rfl⟩
  unfold N8NClient.sendWithRetry
  cases post payload 0 <;> rfl

theorem all_dropWhile (p q : Char → Bool) (l : List Char) (h : l.all p = true) :
    (l.dropWhile q).all p = true := by
  induction l with
  | nil => exact h
  | cons c t ih =>
    rw [List.all_cons, Bool.and_eq_true] at h
    rw [List.dropWhile_cons]
    by_cases hq : q c
    · rw [if_pos hq]; exact ih h.2
    · rw [if_neg hq, List.all_cons, Bool.and_eq_true]; exact ⟨h.1, h.2⟩

theorem all_trimList (p : Char → Bool) (l : List Char) (h : l.all p = true) :
    (trimList l).all p = true := by
  unfold trimList
  rw [List.all_reverse]
  exact all_dropWhile p jsSpace _ (by rw [List.all_reverse]; exact all_dropWhile p jsSpace l h)

theorem all_filter_self (p : Char → Bool) (l : List Char) :
    (l.filter p).all p = true := by
  induction l with
  | nil => rfl
  | cons c t ih =>
    rw [List.filter_cons]
    by_cases hc : p c
    · rw [if_pos hc, List.all_cons, Bool.and_eq_true]; exact ⟨hc, ih⟩
    · rw [if_neg hc]; exact ih

theorem collapseWs_length_le (l : List Char) :
    (collapseWs l).length ≤ l.length := by
  induction l with
  | nil => exact Nat.le_refl 0
  | cons c t ih =>
    unfold collapseWs
    by_cases hc : jsSpace c
    · rw [if_pos hc]
      cases t with
      | nil => exact Nat.le_refl 1
      | cons d t' =>
        dsimp only
        by_cases hd : jsSpace d
        · rw [if_pos hd]
          exact Nat.le_trans ih (Nat.le_succ _)
        · rw [if_neg hd]
          exact Nat.succ_le_succ ih
    · rw [if_neg hc]
      exact Nat.succ_le_succ ih

theorem trimList_length_le (l : List Char) : (trimList l).length ≤ l.length := by
  unfold trimList
  rw [List.length_reverse]
  calc ((l.dropWhile jsSpace).reverse.dropWhile jsSpace).length
      ≤ (l.dropWhile jsSpace).reverse.length :=
        (List.dropWhile_sublist _).length_le
    _ = (l.dropWhile jsSpace).length := List.length_reverse ..
    _ ≤ l.length := (List.dropWhile_sublist _).length_le

theorem head?_dropWhile (p : Char → Bool) (l : List Char) :
    ((l.dropWhile p).head?.all fun c => !p c) = true := by
  induction l with
  | nil => rfl
  | cons c t ih =>
    rw [List.dropWhile_cons]
    by_cases hc : p c
    · rw [if_pos hc]; exact ih
    · rw [if_neg hc]
      simp [hc]

theorem trimList_head (l : List Char) :
    ((trimList l).head?.all fun c => !jsSpace c) = true := by
  have hpre : trimList l <+: l.dropWhile jsSpace := by
    have hsuf : (l.dropWhile jsSpace).reverse.dropWhile jsSpace
        <:+ (l.dropWhile jsSpace).reverse := List.dropWhile_suffix _
    have := hsuf.reverse
    rwa [List.reverse_reverse] at this
  cases hB : trimList l with
  | nil => rfl
  | cons b t =>
    rw [hB] at hpre
    obtain ⟨u, hu⟩ := hpre
    have h1 := head?_dropWhile jsSpace l
    rw [← hu] at h1
    simpa using h1

theorem trimList_last (l : List Char) :
    ((trimList l).reverse.head?.all fun c => !jsSpace c) = true := by
  unfold trimList
  rw [List.reverse_reverse]
  exact head?_dropWhile ..

set_option maxRecDepth 20000 in
/-- C6 counterexample: `sanitizeText` applies no 200-character cap — a
201-character input of whitelisted characters is returned at length 201. -/
theorem C6_no_length_cap_counterexample :
    200 < (Helpers.sanitizeText (String.mk (List.replicate 201 'a'))).length := by
  decide

/-- C6 as amended: `sanitizeText` collapses whitespace runs, then removes
the characters outside the whitelist (word characters, whitespace, `-`,
`_`, `.`, `₺`, `$`, `€`), then trims — so the result consists of
whitelisted characters only, is no longer than the input and carries no
leading or trailing whitespace — but its length is **not** capped at 200
characters (the cap exists only in the separate in-browser copy of the
function). -/
theorem C6_sanitize_amended (s : String) :
    Helpers.sanitizeText s
      = String.mk (trimList ((collapseWs s.data).filter Helpers.whitelistChar)) ∧
    ((Helpers.sanitizeText s).data.all Helpers.whitelistChar) = true ∧
    (Helpers.sanitizeText s).length ≤ s.length ∧
    ((Helpers.sanitizeText s).data.head?.all fun c => !jsSpace c) = true ∧
    ((Helpers.sanitizeText s).data.reverse.head?.all fun c => !jsSpace c) = true := by
  refine ⟨rfl, ?_, ?_, ?_, ?_⟩
  · exact all_trimList _ _ (all_filter_self ..)
  · show (trimList ((collapseWs s.data).filter Helpers.whitelistChar)).length
      ≤ s.data.length
    calc (trimList ((collapseWs s.data).filter Helpers.whitelistChar)).length
        ≤ ((collapseWs s.data).filter Helpers.whitelistChar).length :=
          trimList_length_le _
      _ ≤ (collapseWs s.data).length := List.length_filter_le ..
      _ ≤ s.data.length := collapseWs_length_le _
  · exact trimList_head _
  · exact trimList_last _

theorem replaceFirst_of_not_includes (pat repl l : List Char)
    (h : jsIncludes l pat = false) : replaceFirstList pat repl l = l := by
  induction l with
  | nil =>
    unfold jsIncludes at h
    unfold replaceFirstList
    rw [if_neg]
    intro hpre
    cases pat with
    | nil => exact absurd h (by simp)
    | cons a as => simp [List.isPrefixOf] at hpre
  | cons d rest ih =>
    unfold jsIncludes at h
    rw [Bool.or_eq_false_iff] at h
    unfold replaceFirstList
    rw [if_neg (by rw [h.1]; exact Bool.false_ne_true)]
    rw [ih h.2]

/-- C7 counterexample: for `https://shop.www.example.com/x` the hostname
carries no leading `"www."`, yet `extractDomain` removes the interior
occurrence instead of returning the hostname unchanged. -/
theorem C7_www_strip_counterexample :
    Helpers.urlHostname "https://shop.www.example.com/x"
      = some "shop.www.example.com" ∧
    "www.".data.isPrefixOf "shop.www.example.com".data = false ∧
    Helpers.extractDomain "https://shop.www.example.com/x" = "shop.example.com" ∧
    Helpers.extractDomain "https://shop.www.example.com/x"
      ≠ "shop.www.example.com" := by
  refine ⟨by decide, by decide, by decide, by decide⟩

/-- C7 as amended: `extractDomain` returns the parsed URL's hostname with
the *first occurrence* of `"www."` removed — anywhere in the hostname, not
only as a leading prefix (hostnames not containing `"www."` at all are
returned unchanged) — returns `""` on a malformed URL, and never throws;
`extractDomain "https://www.turkpin.com/x" = "turkpin.com"` holds. -/
theorem C7_extract_domain_amended :
    Helpers.extractDomain "https://www.turkpin.com/x" = "turkpin.com" ∧
    (∀ s, Helpers.urlHostname s = none → Helpers.extractDomain s = "") ∧
    (∀ s host, Helpers.urlHostname s = some host →
      Helpers.extractDomain s
        = String.mk (replaceFirstList "www.".data [] host.data)) ∧
    (∀ s host, Helpers.urlHostname s = some host →
      jsIncludes host.data "www.".data = false → Helpers.extractDomain s = host) := by
  refine ⟨by decide, fun s h => ?_, fun s host h => ?_, fun s host h hw => ?_⟩
  · unfold Helpers.extractDomain
    rw [h]
  · unfold Helpers.extractDomain
    rw [h]
  · unfold Helpers.extractDomain
    rw [h]
    show String.mk (replaceFirstList "www.".data [] host.data) = host
    rw [replaceFirst_of_not_includes "www.".data [] host.data hw]

/-- Witness for C7-as-amended at concrete inputs: a malformed URL yields
`""`, and a hostname without any `"www."` is returned unchanged. -/
theorem C7_extract_domain_amended_witness :
    Helpers.urlHostname "not a url" = none ∧
    Helpers.extractDomain "not a url" = "" ∧
    Helpers.urlHostname "https://turkpin.com/x" = some "turkpin.com" ∧
    jsIncludes "turkpin.com".data "www.".data = false ∧
    Helpers.extractDomain "https://turkpin.com/x" = "turkpin.com" :=
  ⟨by decide, C7_extract_domain_amended.2.1 "not a url" (by decide), by decide,
   by decide,
   C7_extract_domain_amended.2.2.2 "https://turkpin.com/x" "turkpin.com"
     (by decide) (by decide)⟩

theorem numCands_eq_nil (l : List Char)
    (h : l.all (fun c => !c.isDigit) = true) : numCands l = [] := by
  unfold numCands
  cases l with
  | nil => rfl
  | cons c t =>
    rw [List.all_cons, Bool.and_eq_true, Bool.not_eq_true'] at h
    simp [List.takeWhile_cons, h.1]

theorem litAt_all (p : Char → Bool) (lit : List Char) :
    ∀ (ci : Bool) (s co rest : List Char),
      litAt lit ci s = some (co, rest) → s.all p = true → rest.all p = true := by
  induction lit with
  | nil =>
    intro ci s co rest h hs
    unfold litAt at h
    cases h
    exact hs
  | cons lc lt ih =>
    intro ci s co rest h hs
    cases s with
    | nil => exact absurd h (by simp [litAt])
    | cons c cs =>
      unfold litAt at h
      rw [List.all_cons, Bool.and_eq_true] at hs
      by_cases hm : (if ci then c.toLower = lc.toLower else c = lc)
      · rw [if_pos hm] at h
        cases hrec : litAt lt ci cs with
        | none => rw [hrec] at h; cases h
        | some pr =>
          rw [hrec] at h
          cases h
          exact ih ci cs pr.1 pr.2 (by rw [hrec]) hs.2
      · rw [if_neg hm] at h
        cases h

theorem numThenLitAt_eq_none (lit : List Char) (ci : Bool) (s : List Char)
    (h : s.all (fun c => !c.isDigit) = true) : numThenLitAt lit ci s = none := by
  unfold numThenLitAt
  rw [numCands_eq_nil s h]
  rfl

theorem litThenNumAt_eq_none (lit : List Char) (ci : Bool) (s : List Char)
    (h : s.all (fun c => !c.isDigit) = true) : litThenNumAt lit ci s = none := by
  unfold litThenNumAt
  cases hl : litAt lit ci s with
  | none => rfl
  | some pr =>
    obtain ⟨co, rest⟩ := pr
    have h2 : rest.all (fun c => !c.isDigit) = true :=
      litAt_all _ lit ci s co rest hl h
    dsimp only
    rw [numCands_eq_nil _ (all_dropWhile _ jsSpace _ h2)]

theorem bareNumAt_eq_none (s : List Char)
    (h : s.all (fun c => !c.isDigit) = true) : bareNumAt s = none := by
  unfold bareNumAt
  rw [numCands_eq_nil s h]

theorem scanLeftmost_eq_none (f : List Char → Option α) (p : Char → Bool)
    (hf : ∀ t, t.all p = true → f t = none) :
    ∀ s, s.all p = true → scanLeftmost f s = none := by
  intro s
  induction s with
  | nil =>
    intro _
    unfold scanLeftmost
    rw [hf [] rfl]
  | cons c t ih =>
    intro h
    unfold scanLeftmost
    rw [hf _ h]
    exact ih (by rw [List.all_cons, Bool.and_eq_true] at h; exact h.2)

theorem collapseWs_all (p : Char → Bool) (hsp : p ' ' = true) :
    ∀ l : List Char, l.all p = true → (collapseWs l).all p = true := by
  intro l
  induction l with
  | nil => intro h; exact h
  | cons c t ih =>
    intro h
    rw [List.all_cons, Bool.and_eq_true] at h
    unfold collapseWs
    by_cases hs : jsSpace c
    · rw [if_pos hs]
      cases t with
      | nil => simp [hsp]
      | cons d t' =>
        dsimp only
        by_cases hd : jsSpace d
        · rw [if_pos hd]
          exact ih h.2
        · rw [if_neg hd, List.all_cons, Bool.and_eq_true]
          exact ⟨hsp, ih h.2⟩
    · rw [if_neg hs, List.all_cons, Bool.and_eq_true]
      exact ⟨h.1, ih h.2⟩

/-- C8: `parsePrice` evaluates as specified on the three spec examples;
`"5 $ 3 TL"` shows the TRY patterns taking priority over the later USD
pattern even though `$` appears earlier in the text; and every input
containing no digit at all yields `{0, TRY}`. -/
theorem C8_parse_price_spec :
    Helpers.parsePrice "₺149,90" = ⟨⟨14990, 100⟩, "TRY"⟩ ∧
    (Helpers.parsePrice "₺149,90").price.toRat = 149.9 ∧
    Helpers.parsePrice "$19.99" = ⟨⟨1999, 100⟩, "USD"⟩ ∧
    (Helpers.parsePrice "$19.99").price.toRat = 19.99 ∧
    Helpers.parsePrice "no digits" = ⟨⟨0, 1⟩, "TRY"⟩ ∧
    Helpers.parsePrice "5 $ 3 TL" = ⟨⟨3, 1⟩, "TRY"⟩ ∧
    (∀ s : String, s.data.all (fun c => !c.isDigit) = true →
      Helpers.parsePrice s = ⟨⟨0, 1⟩, "TRY"⟩) := by
  refine ⟨by decide, ?_, by decide, ?_, by decide, by decide, fun s h => ?_⟩
  · rw [show (Helpers.parsePrice "₺149,90").price = ⟨14990, 100⟩ from by decide]
    unfold JsNum.toRat
    norm_num
  · rw [show (Helpers.parsePrice "$19.99").price = ⟨1999, 100⟩ from by decide]
    unfold JsNum.toRat
    norm_num
  · unfold Helpers.parsePrice
    by_cases hempty : s = ""
    · rw [if_pos hempty]
    · rw [if_neg hempty]
      have hclean : (trimList (collapseWs s.data)).all (fun c => !c.isDigit) = true :=
        all_trimList _ _ (collapseWs_all _ (by decide) _ h)
      have h1 : ∀ (lit : List Char) (ci : Bool),
          scanLeftmost (numThenLitAt lit ci) (trimList (collapseWs s.data)) = none :=
        fun lit ci =>
          scanLeftmost_eq_none _ _ (fun t ht => numThenLitAt_eq_none lit ci t ht) _ hclean
      have h2 : ∀ (lit : List Char) (ci : Bool),
          scanLeftmost (litThenNumAt lit ci) (trimList (collapseWs s.data)) = none :=
        fun lit ci =>
          scanLeftmost_eq_none _ _ (fun t ht => litThenNumAt_eq_none lit ci t ht) _ hclean
      have h3 : scanLeftmost bareNumAt (trimList (collapseWs s.data)) = none :=
        scanLeftmost_eq_none _ _ (fun t ht => bareNumAt_eq_none t ht) _ hclean
      simp only [Helpers.currencyPatterns, List.findSome?_cons, List.findSome?_nil,
        h1, h2, h3, Option.map_none']

/-- Witness for C8's universally quantified clause at a concrete digit-free
input. -/
theorem C8_parse_price_spec_witness :
    ("abc".data.all (fun c => !c.isDigit)) = true ∧
    Helpers.parsePrice "abc" = ⟨⟨0, 1⟩, "TRY"⟩ :=
  ⟨by decide, C8_parse_price_spec.2.2.2.2.2.2 "abc" (by decide)⟩

theorem processContainers_eq_take (cfg : SiteConfig) (url domain : String) :
    ∀ (els : List Element) (idx : Nat),
      PuppeteerScraper.processContainers cfg url domain els idx
        = (els.take (51 - idx)).filterMap
            (PuppeteerScraper.processElement cfg url domain) := by
  intro els
  induction els with
  | nil => intro idx; simp [PuppeteerScraper.processContainers]
  | cons el rest ih =>
    intro idx
    unfold PuppeteerScraper.processContainers
    by_cases h : idx > 50
    · rw [if_pos h, ih, show 51 - idx = 0 from by omega,
        show 51 - (idx + 1) = 0 from by omega]
      rfl
    · rw [if_neg h, show 51 - idx = (51 - (idx + 1)) + 1 from by omega,
        List.take_succ_cons, List.filterMap_cons]
      cases hpe : PuppeteerScraper.processElement cfg url domain el with
      | none => rw [ih]
      | some item => rw [ih]

theorem processElement_price_valid (cfg : SiteConfig) (url domain : String)
    (el : Element) (item : ScrapedItem)
    (h : PuppeteerScraper.processElement cfg url domain el = some item) :
    PuppeteerScraper.isValidPrice (PuppeteerScraper.parsePrice item.price).1
      = true := by
  unfold PuppeteerScraper.processElement at h
  dsimp only at h
  by_cases hval : PuppeteerScraper.isValidPrice
      (PuppeteerScraper.parsePrice
        (PuppeteerScraper.derivedTitlePrice cfg el).2).1 = true
  · by_cases hguard : ((PuppeteerScraper.derivedTitlePrice cfg el).1 ≠ ""
        && (PuppeteerScraper.derivedTitlePrice cfg el).2 ≠ ""
        && (PuppeteerScraper.derivedTitlePrice cfg el).1.length > 3) = true
    · rw [if_pos hguard, if_pos hval] at h
      cases h
      exact hval
    · rw [if_neg hguard] at h
      cases h
  · by_cases hguard : ((PuppeteerScraper.derivedTitlePrice cfg el).1 ≠ ""
        && (PuppeteerScraper.derivedTitlePrice cfg el).2 ≠ ""
        && (PuppeteerScraper.derivedTitlePrice cfg el).1.length > 3) = true
    · rw [if_pos hguard, if_neg hval] at h
      cases h
    · rw [if_neg hguard] at h
      cases h

theorem extractLoop_eq_findSome (cfg : SiteConfig) (page : Page)
    (url domain : String) :
    ∀ sels : List String,
      PuppeteerScraper.extractLoop cfg page url domain sels []
        = (sels.findSome? fun sel =>
            if (((page.query sel).take 51).filterMap
                (PuppeteerScraper.processElement cfg url domain)).isEmpty
            then none
            else some (((page.query sel).take 51).filterMap
              (PuppeteerScraper.processElement cfg url domain))).getD [] := by
  intro sels
  induction sels with
  | nil => rfl
  | cons sel rest ih =>
    unfold PuppeteerScraper.extractLoop
    rw [List.findSome?_cons]
    dsimp only
    by_cases hq : (page.query sel).length = 0
    · have hnil : page.query sel = [] := List.length_eq_zero.mp hq
      rw [if_pos hq, ih, hnil]
      rfl
    · rw [if_neg hq, List.nil_append,
        processContainers_eq_take cfg url domain (page.query sel) 0]
      simp only [Nat.sub_zero]
      cases hr : ((page.query sel).take 51).filterMap
          (PuppeteerScraper.processElement cfg url domain) with
      | nil => simp [ih]
      | cons i t => simp

set_option maxRecDepth 20000 in
/-- C9 counterexample: with one container selector matching 52 valid
product elements, the in-page extraction emits **51** items — the
`if (index > 50) return` guard lets indices 0 through 50 pass — so "at most
50 matched elements per page are processed" is false. -/
theorem C9_element_cap_counterexample :
    50 < (PuppeteerScraper.extractItems cfgC9 pageC9 "https://x.example/"
      "x.example").length ∧
    (PuppeteerScraper.extractItems cfgC9 pageC9 "https://x.example/"
      "x.example").length = 51 := by
  constructor <;> decide

/-- C9 as amended: the container selectors are tried in order and iteration
stops at the first selector whose matched elements *yield at least one
item* (a selector with matches but only skipped elements does **not** stop
the cascade, exactly like a selector with no matches); for the chosen
selector at most the first **51** matched elements (indices 0–50) are
processed; elements are skipped exactly when the derived title is empty or
of length ≤ 3, the price text is empty, or the parsed price fails
validation — in particular every emitted item's raw price text parses to a
valid price. -/
theorem C9_extraction_amended (cfg : SiteConfig) (page : Page)
    (url domain : String) :
    PuppeteerScraper.extractItems cfg page url domain
      = (((splitOnSep ',' [' '] cfg.selectors.container.data).map
            String.mk).findSome? fun sel =>
          if (((page.query sel).take 51).filterMap
              (PuppeteerScraper.processElement cfg url domain)).isEmpty
          then none
          else some (((page.query sel).take 51).filterMap
            (PuppeteerScraper.processElement cfg url domain))).getD [] ∧
    (PuppeteerScraper.extractItems cfg page url domain).length ≤ 51 ∧
    ((PuppeteerScraper.extractItems cfg page url domain).all fun item =>
      PuppeteerScraper.isValidPrice (PuppeteerScraper.parsePrice item.price).1)
      = true := by
  have hmain := extractLoop_eq_findSome cfg page url domain
    ((splitOnSep ',' [' '] cfg.selectors.container.data).map String.mk)
  refine ⟨hmain, ?_, ?_⟩
  · show (PuppeteerScraper.extractLoop cfg page url domain _ []).length ≤ 51
    rw [hmain]
    cases hf : ((splitOnSep ',' [' '] cfg.selectors.container.data).map
        String.mk).findSome? (fun sel =>
          if (((page.query sel).take 51).filterMap
              (PuppeteerScraper.processElement cfg url domain)).isEmpty
          then none
          else some (((page.query sel).take 51).filterMap
            (PuppeteerScraper.processElement cfg url domain))) with
    | none => simp
    | some r =>
      obtain ⟨l₁, sel, l₂, -, hsel, -⟩ := List.findSome?_eq_some_iff.mp hf
      have hr : r = ((page.query sel).take 51).filterMap
          (PuppeteerScraper.processElement cfg url domain) := by
        by_cases he : (((page.query sel).take 51).filterMap
            (PuppeteerScraper.processElement cfg url domain)).isEmpty
        · rw [if_pos he] at hsel; cases hsel
        · rw [if_neg he] at hsel; cases hsel; rfl
      calc (Option.getD (some r) []).length = r.length := rfl
        _ ≤ ((page.query sel).take 51).length := by
            rw [hr]; exact List.length_filterMap_le ..
        _ ≤ 51 := List.length_take_le ..
  · show (PuppeteerScraper.extractLoop cfg page url domain _ []).all _ = true
    rw [hmain]
    cases hf : ((splitOnSep ',' [' '] cfg.selectors.container.data).map
        String.mk).findSome? (fun sel =>
          if (((page.query sel).take 51).filterMap
              (PuppeteerScraper.processElement cfg url domain)).isEmpty
          then none
          else some (((page.query sel).take 51).filterMap
            (PuppeteerScraper.processElement cfg url domain))) with
    | none => rfl
    | some r =>
      obtain ⟨l₁, sel, l₂, -, hsel, -⟩ := List.findSome?_eq_some_iff.mp hf
      have hr : r = ((page.query sel).take 51).filterMap
          (PuppeteerScraper.processElement cfg url domain) := by
        by_cases he : (((page.query sel).take 51).filterMap
            (PuppeteerScraper.processElement cfg url domain)).isEmpty
        · rw [if_pos he] at hsel; cases hsel
        · rw [if_neg he] at hsel; cases hsel; rfl
      rw [List.all_eq_true]
      intro item hitem
      rw [show Option.getD (some r) [] = r from rfl, hr] at hitem
      obtain ⟨el, -, hel⟩ := List.mem_filterMap.mp hitem
      exact processElement_price_valid cfg url domain el item hel

theorem priceRecords_eq (ts : Nat) (r : ScrapingResult) :
    N8NClient.priceRecordsOfResult ts r
      = if r.success then
          r.items.filterMap (fun item =>
            if (N8NClient.parsePrice item.price).price.isPos then
              some { price := (N8NClient.parsePrice item.price).price,
                     currency := (N8NClient.parsePrice item.price).currency,
                     region := item.region, product_name := item.title,
                     url := item.url, batch_timestamp := ts }
            else none)
        else [] := by
  unfold N8NClient.priceRecordsOfResult
  cases hs : r.success with
  | false => simp
  | true =>
    by_cases hl : r.items.length > 0
    · simp [hl]
    · have hnil : r.items = [] := List.length_eq_zero.mp (by omega)
      simp [hl, hnil]

theorem priceRecords_length_le (ts : Nat) (r : ScrapingResult) :
    (N8NClient.priceRecordsOfResult ts r).length ≤ r.items.length := by
  unfold N8NClient.priceRecordsOfResult
  by_cases h : (r.success && decide (r.items.length > 0)) = true
  · rw [if_pos h]
    exact List.length_filterMap_le ..
  · rw [if_neg h]
    exact Nat.zero_le _

/-- C10: the delivery payload's `items` are exactly the items of succeeded
outcomes whose raw price text re-parses to a strictly positive value
(items re-parsing to 0, e.g. digit-free price text, are dropped; the
`items.length > 0` guard in the source is redundant and does not affect
the set), while `metadata.totalItems` still reports the batch's
`totalItems`; consequently, whenever `totalItems` is the batch's full item
count, the payload's item list is no longer than `metadata.totalItems`. -/
theorem C10_payload_filtering (br : BatchResult) :
    (N8NClient.buildPayload br).metadata.totalItems = br.totalItems ∧
    (N8NClient.buildPayload br).items
      = (br.results.map (fun r =>
          if r.success then
            r.items.filterMap (fun item =>
              if (N8NClient.parsePrice item.price).price.isPos then
                some { price := (N8NClient.parsePrice item.price).price,
                       currency := (N8NClient.parsePrice item.price).currency,
                       region := item.region, product_name := item.title,
                       url := item.url, batch_timestamp := br.timestamp }
              else none)
          else [])).flatten ∧
    (N8NClient.buildPayload br).items.length
      ≤ (br.results.map (fun r => r.items.length)).sum ∧
    (br.totalItems = (br.results.map (fun r => r.items.length)).sum →
      (N8NClient.buildPayload br).items.length
        ≤ (N8NClient.buildPayload br).metadata.totalItems) := by
  have hlen : (N8NClient.buildPayload br).items.length
      ≤ (br.results.map (fun r => r.items.length)).sum := by
    show ((br.results.map (N8NClient.priceRecordsOfResult br.timestamp)).flatten).length
      ≤ _
    rw [List.length_flatten, List.map_map]
    exact List.sum_le_sum fun r _ => priceRecords_length_le br.timestamp r
  refine ⟨rfl, ?_, hlen, fun h => ?_⟩
  · show ((br.results.map (N8NClient.priceRecordsOfResult br.timestamp)).flatten) = _
    congr 1
    exact List.map_congr_left fun r _ => priceRecords_eq br.timestamp r
  · show (N8NClient.buildPayload br).items.length ≤ br.totalItems
    rw [h]
    exact hlen

/-- Witness for C10: in a batch with one succeeded result holding one
payable item and one digit-free item, the payload keeps exactly one record
while `metadata.totalItems` still reports 2. -/
theorem C10_payload_filtering_witness :
    brC10.totalItems = (brC10.results.map (fun r => r.items.length)).sum ∧
    (N8NClient.buildPayload brC10).items.length
      ≤ (N8NClient.buildPayload brC10).metadata.totalItems ∧
    (N8NClient.buildPayload brC10).items.length = 1 ∧
    (N8NClient.parsePrice itemDropped.price).price.isPos = false ∧
    (N8NClient.buildPayload brC10).metadata.totalItems = 2 :=
  ⟨by decide, (C10_payload_filtering brC10).2.2.2 (by decide), by decide,
   by decide, by decide⟩

example : scanLeftmost (litThenNumAt ['₺'] false) "₺149,90".data = some "149,90".data := by decide
example : parseFloatM "149.90".data = some ⟨14990, 100⟩ := by decide
example : parseFloatM "..".data = none := by decide
example : splitOnSep ',' [' '] "a, b, c".data = ["a".data, "b".data, "c".data] := by decide
example : replaceFirstList "www.".data [] "shop.www.example.com".data = "shop.example.com".data := by decide
example : collapseWs "a   b".data = "a b".data := by decide
example : scanLeftmost (numThenLitAt ['T', 'L'] true) "5 $ 3 TL".data = some ['3'] := by decide
example : Helpers.parsePrice "₺149,90" = ⟨⟨14990, 100⟩, "TRY"⟩ := by decide
example : Helpers.parsePrice "$19.99" = ⟨⟨1999, 100⟩, "USD"⟩ := by decide
example : Helpers.parsePrice "no digits" = ⟨⟨0, 1⟩, "TRY"⟩ := by decide
example : Helpers.parsePrice "5 $ 3 TL" = ⟨⟨3, 1⟩, "TRY"⟩ := by decide
example : Helpers.extractDomain "https://www.turkpin.com/x" = "turkpin.com" := by decide
example : Helpers.extractDomain "not a url" = "" := by decide
example : Helpers.extractDomain "https://shop.www.example.com/x" = "shop.example.com" := by decide
example : Helpers.sanitizeText "  Hé llo!  wörld  " = "H llo wrld" := by decide
example : Helpers.extractGameSlug "https://x.com/pubg-uc" "" = "pubg" := by decide
